import Mathlib

/-!
Verification development for the public surface of qiskit.algorithms and for
the variational-eigensolver optimization core that the accompanying
specification describes.

The file has two parts.  The first embeds the one source file of the
repository snapshot, qiskit/algorithms/__init__.py: the list of names bound
at top level by its import statements, the list of names it exports through
its module export list, and the solver-family sections of its module
docstring.  The second part models, from the specification, the optimization
core whose implementation modules are not part of the snapshot: the
evaluation port, the optimization driver with call counting and
cancellation, the result aggregator, the auxiliary observable evaluator,
the deflation extension for excited states, and the finite-difference
gradient closure.
-/

namespace QiskitAlgorithms

/-- Names bound at the top level of qiskit/algorithms/__init__.py by
its import statements, in source order (source lines 224 to 267). -/
def importedNames : List String :=
  ["AlgorithmResult",
   "EvolutionResult", "EvolutionProblem",
   "RealEvolver",
   "ImaginaryEvolver",
   "VariationalAlgorithm", "VariationalResult",
   "Grover", "GroverResult", "AmplificationProblem", "AmplitudeAmplifier",
   "AmplitudeEstimator", "AmplitudeEstimatorResult", "AmplitudeEstimation",
   "AmplitudeEstimationResult", "FasterAmplitudeEstimation",
   "FasterAmplitudeEstimationResult", "IterativeAmplitudeEstimation",
   "IterativeAmplitudeEstimationResult", "MaximumLikelihoodAmplitudeEstimation",
   "MaximumLikelihoodAmplitudeEstimationResult", "EstimationProblem",
   "NumPyEigensolver", "Eigensolver", "EigensolverResult", "VQD", "VQDResult",
   "Shor", "ShorResult",
   "HHL", "LinearSolver", "NumPyLinearSolver", "LinearSolverResult",
   "VQE", "VQEResult", "QAOA", "NumPyMinimumEigensolver",
   "MinimumEigensolver", "MinimumEigensolverResult",
   "HamiltonianPhaseEstimation", "HamiltonianPhaseEstimationResult",
   "PhaseEstimationScale", "PhaseEstimation", "PhaseEstimationResult",
   "IterativePhaseEstimation",
   "AlgorithmError",
   "eval_observables",
   "TrotterQRTE",
   "VarQITE",
   "VarQRTE",
   "PVQD", "PVQDResult"]

/-- Contents of the module export list __all__ of
qiskit/algorithms/__init__.py (source lines 269 to 321), in source order. -/
def dunderAll : List String :=
  ["AlgorithmResult",
   "VariationalAlgorithm",
   "VariationalResult",
   "AmplitudeAmplifier",
   "AmplificationProblem",
   "Grover",
   "GroverResult",
   "AmplitudeEstimator",
   "AmplitudeEstimatorResult",
   "AmplitudeEstimation",
   "AmplitudeEstimationResult",
   "FasterAmplitudeEstimation",
   "FasterAmplitudeEstimationResult",
   "IterativeAmplitudeEstimation",
   "IterativeAmplitudeEstimationResult",
   "MaximumLikelihoodAmplitudeEstimation",
   "MaximumLikelihoodAmplitudeEstimationResult",
   "EstimationProblem",
   "NumPyEigensolver",
   "RealEvolver",
   "ImaginaryEvolver",
   "TrotterQRTE",
   "VarQITE",
   "VarQRTE",
   "EvolutionResult",
   "EvolutionProblem",
   "LinearSolverResult",
   "Eigensolver",
   "EigensolverResult",
   "Shor",
   "ShorResult",
   "VQE",
   "VQEResult",
   "QAOA",
   "LinearSolver",
   "HHL",
   "NumPyLinearSolver",
   "NumPyMinimumEigensolver",
   "MinimumEigensolver",
   "MinimumEigensolverResult",
   "HamiltonianPhaseEstimation",
   "HamiltonianPhaseEstimationResult",
   "VQD",
   "PhaseEstimationScale",
   "PhaseEstimation",
   "PhaseEstimationResult",
   "PVQD",
   "PVQDResult",
   "IterativePhaseEstimation",
   "AlgorithmError",
   "eval_observables"]

/-- Names listed in the Amplitude Estimators section of the module
docstring (source lines 55 to 72). -/
def amplitudeEstimatorNames : List String :=
  ["AmplitudeEstimator", "AmplitudeEstimatorResult", "AmplitudeEstimation",
   "AmplitudeEstimationResult", "EstimationProblem", "FasterAmplitudeEstimation",
   "FasterAmplitudeEstimationResult", "IterativeAmplitudeEstimation",
   "IterativeAmplitudeEstimationResult", "MaximumLikelihoodAmplitudeEstimation",
   "MaximumLikelihoodAmplitudeEstimationResult"]

/-- Names listed in the Phase Estimators section of the module docstring
(source lines 187 to 201). -/
def phaseEstimatorNames : List String :=
  ["HamiltonianPhaseEstimation", "HamiltonianPhaseEstimationResult",
   "PhaseEstimationScale", "PhaseEstimation", "PhaseEstimationResult",
   "IterativePhaseEstimation"]

/-- Names listed in the Factorizers section of the module docstring
(source lines 130 to 140). -/
def factorizerNames : List String :=
  ["Shor", "ShorResult"]

/-- Names listed in the Evolvers section of the module docstring
(source lines 108 to 127). -/
def evolverNames : List String :=
  ["RealEvolver", "ImaginaryEvolver", "TrotterQRTE", "VarQITE", "VarQRTE",
   "PVQD", "PVQDResult", "EvolutionResult", "EvolutionProblem"]

/-- Names of the four solver families the specification declares out of
scope (amplitude estimation, phase estimation, factoring, time evolution),
taken from the corresponding docstring sections of the source file. -/
def outOfScopeNames : List String :=
  amplitudeEstimatorNames ++ phaseEstimatorNames ++ factorizerNames ++ evolverNames

/-- Parameter vectors are ordered sequences of real-valued parameters,
modelled over the rationals so that runs are exactly computable. -/
abbrev ParamVec := List ℚ

/-- Modelled from the spec: failure modes of the external Evaluation Port
(section 6 of the spec); the implementation module is not in the snapshot. -/
inductive EvalError where
  | backendUnavailable
  | executionTimeout
deriving DecidableEq

/-- Modelled from the spec: the Evaluation Port, a deterministic external
capability mapping bound parameters to an expectation-value estimate or a
failure (spec section 6); the implementation module is not in the snapshot. -/
abbrev EvalPort := ParamVec → Except EvalError ℚ

/-- Modelled from the spec: one Evaluation Record of the append-only
optimization history (spec section 3). -/
structure EvalRecord where
  params : ParamVec
  value : ℚ
deriving DecidableEq

/-- Modelled from the spec: outcome of one Optimization Driver run — normal
termination, external cancellation, or a mid-run Evaluation Port failure
tagged with the offending parameter vector and evaluation index, with the
history recorded so far preserved in every case (spec sections 4.2 and 5). -/
inductive RunOutcome where
  | done (best : Option EvalRecord) (history : List EvalRecord)
  | interrupted (best : Option EvalRecord) (history : List EvalRecord)
  | failed (params : ParamVec) (index : Nat) (history : List EvalRecord)
deriving DecidableEq

/-- Record with the smaller value, keeping the earlier record on ties. -/
def betterOf (b r : EvalRecord) : EvalRecord :=
  if r.value < b.value then r else b

/-- First record of minimal value in a history, the tracked current best. -/
def bestOf : List EvalRecord → Option EvalRecord
  | [] => none
  | r :: rs =>
    match bestOf rs with
    | none => some r
    | some b => some (betterOf r b)

/-- Modelled from the spec: the Optimization Driver loop (spec section 4.2);
the implementation module is not in the snapshot.  The optimizer is a
deterministic pluggable step function from the history recorded so far to
the next query point, or none to stop.  The fuel argument is the hard
ceiling on total Evaluation Port calls.  The cancellation token is polled
at each Evaluation Port call boundary, never mid-evaluation, as a function
of the number of calls made so far.  Every successful evaluation appends
one Evaluation Record to the history; the returned number counts the
Evaluation Port calls made, the failing one included. -/
def driverLoop (port : EvalPort) (opt : List EvalRecord → Option ParamVec)
    (cancel : Nat → Bool) :
    Nat → List EvalRecord → ParamVec → Nat → RunOutcome × Nat
  | 0, hist, _q, calls => (.done (bestOf hist) hist, calls)
  | fuel + 1, hist, q, calls =>
    if cancel calls then
      (.interrupted (bestOf hist) hist, calls)
    else
      match port q with
      | .error _e => (.failed q hist.length hist, calls + 1)
      | .ok v =>
        match opt (hist ++ [{ params := q, value := v }]) with
        | none =>
          (.done (bestOf (hist ++ [{ params := q, value := v }]))
            (hist ++ [{ params := q, value := v }]), calls + 1)
        | some q2 =>
          driverLoop port opt cancel fuel
            (hist ++ [{ params := q, value := v }]) q2 (calls + 1)

/-- Modelled from the spec: the immutable Eigensolver Result snapshot
(spec sections 3 and 4.3); the implementation module is not in the
snapshot. -/
structure EigensolverResult where
  optimalParams : ParamVec
  optimalValue : ℚ
  nEvals : Nat
  history : List EvalRecord
deriving DecidableEq

/-- Modelled from the spec: the Result Aggregator (spec section 4.3); the
implementation module is not in the snapshot.  Without verification the
optimal value is taken from the tracked best record with no further
Evaluation Port call; with verification exactly one additional Evaluation
Port call is made at the best parameters and a successful result
overrides.  The returned number is the total Evaluation Port call count. -/
def finalize (port : EvalPort) (verify : Bool) (best : EvalRecord)
    (history : List EvalRecord) (calls : Nat) : EigensolverResult × Nat :=
  if verify then
    ({ optimalParams := best.params,
       optimalValue := (port best.params).toOption.getD best.value,
       nEvals := calls + 1,
       history := history }, calls + 1)
  else
    ({ optimalParams := best.params,
       optimalValue := best.value,
       nEvals := calls,
       history := history }, calls)

/-- Modelled from the spec: a completed optimization run followed by result
aggregation; none is returned when the run did not terminate normally with
at least one recorded evaluation. -/
def runAndFinalize (port : EvalPort) (opt : List EvalRecord → Option ParamVec)
    (cancel : Nat → Bool) (fuel : Nat) (initPoint : ParamVec) (verify : Bool) :
    Option (EigensolverResult × Nat) :=
  match driverLoop port opt cancel fuel [] initPoint 0 with
  | (.done (some best) h, calls) => some (finalize port verify best h calls)
  | _ => none

/-- Modelled from the spec: the Ansatz Port, exposing the parameter count,
an optional preferred initial point and optional per-parameter bounds
(spec section 6); the implementation module is not in the snapshot. -/
structure Ansatz where
  parameterCount : Nat
  preferredInitialPoint : Option ParamVec
  bounds : List (Option ℚ × Option ℚ)

/-- Fallback sampling range used when a parameter declares no bounds; the
spec leaves the exact range as explicit configuration (spec section 9). -/
structure FallbackRange where
  lo : ℚ
  hi : ℚ

/-- Seedable deterministic pseudo-random stream in the unit interval,
indexed by seed and position. -/
def rand01 (seed i : Nat) : ℚ :=
  (((((seed + i) * 9301 + 49297) % 233280 : ℕ) : ℚ)) / 233280

/-- Modelled from the spec: validation errors of the Parameter Space
Manager (spec sections 4.1 and 7); the implementation module is not in the
snapshot. -/
inductive VQEError where
  | dimensionMismatch
deriving DecidableEq

/-- Modelled from the spec: seeded generation of an initial point within
declared bounds, falling back to a configured range for unbounded
parameters (spec section 4.1). -/
def generatePoint (fb : FallbackRange) (ansatz : Ansatz) (seed : Nat) : ParamVec :=
  (List.range ansatz.parameterCount).map fun i =>
    match ansatz.bounds[i]? with
    | some (some lo, some hi) => lo + rand01 seed i * (hi - lo)
    | _ => fb.lo + rand01 seed i * (fb.hi - fb.lo)

/-- Modelled from the spec: the Parameter Space Manager prepare operation
(spec section 4.1); the implementation module is not in the snapshot.  A
user-supplied initial point is validated against the ansatz parameter
count before anything else; otherwise the preferred point or a seeded
generated point is used. -/
def prepare (fb : FallbackRange) (ansatz : Ansatz) (userInit : Option ParamVec)
    (seed : Nat) : Except VQEError ParamVec :=
  match userInit with
  | some pt =>
    if pt.length = ansatz.parameterCount then .ok pt
    else .error .dimensionMismatch
  | none =>
    match ansatz.preferredInitialPoint with
    | some p => .ok p
    | none => .ok (generatePoint fb ansatz seed)

/-- Modelled from the spec: a full run — prepare then drive (spec sections
4.1 and 4.2).  The returned number is the total count of Evaluation Port
calls made; validation errors are raised before any Evaluation Port call,
so the count is zero in the error case. -/
def runVQE (port : EvalPort) (opt : List EvalRecord → Option ParamVec)
    (cancel : Nat → Bool) (fuel : Nat) (fb : FallbackRange) (ansatz : Ansatz)
    (userInit : Option ParamVec) (seed : Nat) :
    Except VQEError RunOutcome × Nat :=
  match prepare fb ansatz userInit seed with
  | .error e => (.error e, 0)
  | .ok initPoint =>
    match driverLoop port opt cancel fuel [] initPoint 0 with
    | (out, calls) => (.ok out, calls)

/-- History of evaluation records of a run outcome. -/
def outcomeHistory : RunOutcome → List EvalRecord
  | .done _ h => h
  | .interrupted _ h => h
  | .failed _ _ h => h

/-- Parameter history of a full run: the sequence of parameter vectors at
which the Evaluation Port was successfully queried, in order. -/
def paramHistory (r : Except VQEError RunOutcome × Nat) : List ParamVec :=
  match r.1 with
  | .error _ => []
  | .ok out => (outcomeHistory out).map EvalRecord.params

/-- Modelled from the spec: inputs of one deflation run (spec section
4.5); the implementation module is not in the snapshot.  The penalty
coefficients are caller-supplied configuration, one per previous state. -/
structure VQDSetup where
  basePort : EvalPort
  overlapPort : ParamVec → ParamVec → Except EvalError ℚ
  betas : Nat → ℚ
  opt : List EvalRecord → Option ParamVec
  cancel : Nat → Bool
  fuel : Nat
  initPoint : ParamVec

/-- Modelled from the spec: the overlap penalty sum of the deflation
objective — each overlap with a previous state is obtained through the
Evaluation Port and weighted by its penalty coefficient (spec section
4.5). -/
def penaltySum (ovl : ParamVec → ParamVec → Except EvalError ℚ)
    (betas : Nat → ℚ) (params : ParamVec) :
    Nat → List EigensolverResult → Except EvalError ℚ
  | _, [] => .ok 0
  | j, prior :: rest =>
    match ovl params prior.optimalParams with
    | .error e => .error e
    | .ok o =>
      match penaltySum ovl betas params (j + 1) rest with
      | .error e => .error e
      | .ok s => .ok (betas j * o + s)

/-- Modelled from the spec: the augmented objective of deflation step i,
built from the base expectation plus the weighted overlaps with the
results of the previous steps only (spec section 4.5). -/
def vqdObjective (s : VQDSetup) (priors : List EigensolverResult) : EvalPort :=
  fun params =>
    match s.basePort params with
    | .error e => .error e
    | .ok base =>
      match penaltySum s.overlapPort s.betas params 0 priors with
      | .error e => .error e
      | .ok pen => .ok (base + pen)

/-- Failure marker for an unfinished deflation step, carrying the driver
outcome (with its partial history) and the call count. -/
structure VQDStepFailure where
  outcome : RunOutcome
  calls : Nat

/-- Modelled from the spec: one deflation step — an Optimization Driver
run against the objective augmented with the penalties of the prior
results, aggregated into an Eigensolver Result on normal termination
(spec section 4.5). -/
def vqdStep (s : VQDSetup) (priors : List EigensolverResult) :
    Except VQDStepFailure EigensolverResult :=
  match driverLoop (vqdObjective s priors) s.opt s.cancel s.fuel [] s.initPoint 0 with
  | (.done (some best) h, calls) =>
    .ok { optimalParams := best.params, optimalValue := best.value,
          nEvals := calls, history := h }
  | (out, calls) => .error { outcome := out, calls := calls }

/-- Modelled from the spec: the Deflation Extension — run the driver once
per requested eigenstate, feeding each step the results of the previous
steps as read-only inputs; on a step failure the earlier eigenpairs are
still returned alongside the failure marker and no further step runs
(spec section 4.5). -/
def vqdRun (s : VQDSetup) : Nat → List EigensolverResult × Option VQDStepFailure
  | 0 => ([], none)
  | k + 1 =>
    match vqdRun s k with
    | (results, some f) => (results, some f)
    | (results, none) =>
      match vqdStep s results with
      | .ok r => (results ++ [r], none)
      | .error f => (results, some f)

/-- Modelled from the spec: per-key outcome of the Auxiliary Observable
Evaluator — a (value, variance) pair or a per-key failure marker (spec
section 4.4). -/
inductive AuxEntry where
  | ok (value : ℚ) (variance : ℚ)
  | failedMarker (e : EvalError)
deriving DecidableEq

/-- Validation error of the Auxiliary Observable Evaluator. -/
inductive AuxError where
  | duplicateOperatorKey
deriving DecidableEq

/-- Per-key translation of one Evaluation Port answer into an output
entry: success carries the (value, variance) pair, failure a marker. -/
def auxEntryOf : Except EvalError (ℚ × ℚ) → AuxEntry
  | .ok (v, var) => .ok v var
  | .error e => .failedMarker e

/-- Modelled from the spec: the Auxiliary Observable Evaluator (spec
section 4.4); the implementation module is not in the snapshot.  Duplicate
keys fail before any Evaluation Port call; otherwise each operator costs
exactly one Evaluation Port call at the optimal parameters and a failing
operator yields a per-key marker while the other keys keep their results.
The returned number counts the Evaluation Port calls made. -/
def evalObservables {Key Op : Type} [DecidableEq Key]
    (port : Op → ParamVec → Except EvalError (ℚ × ℚ))
    (auxOps : List (Key × Op)) (optimalParams : ParamVec) :
    Except AuxError (List (Key × AuxEntry)) × Nat :=
  if (auxOps.map Prod.fst).Nodup then
    (.ok (auxOps.map fun ko => (ko.fst, auxEntryOf (port ko.snd optimalParams))),
     auxOps.length)
  else
    (.error .duplicateOperatorKey, 0)

/-- Symmetric perturbation of one coordinate of a parameter vector. -/
def perturb (x : ParamVec) (i : Nat) (eps : ℚ) : ParamVec :=
  x.mapIdx fun j v => if j = i then v + eps else v

/-- Modelled from the spec: the finite-difference gradient components over
a list of coordinate indices, two symmetric perturbed Evaluation Port
calls per coordinate, aborting on the first port failure (spec section
4.2).  The returned number counts the Evaluation Port calls made. -/
def gradComponents (port : EvalPort) (eps : ℚ) (x : ParamVec) :
    List Nat → Except EvalError (List ℚ) × Nat
  | [] => (.ok [], 0)
  | i :: is =>
    match port (perturb x i eps) with
    | .error e => (.error e, 1)
    | .ok vplus =>
      match port (perturb x i (-eps)) with
      | .error e => (.error e, 2)
      | .ok vminus =>
        match gradComponents port eps x is with
        | (.error e, c) => (.error e, 2 + c)
        | (.ok gs, c) => (.ok (((vplus - vminus) / (2 * eps)) :: gs), 2 + c)

/-- Modelled from the spec: the gradient closure used when the Evaluation
Port supplies no analytic gradients — one symmetric finite difference per
parameter (spec section 4.2); the implementation module is not in the
snapshot. -/
def finiteDiffGrad (port : EvalPort) (eps : ℚ) (x : ParamVec) :
    Except EvalError (List ℚ) × Nat :=
  gradComponents port eps x (List.range x.length)

end QiskitAlgorithms

namespace QiskitAlgorithms

/-- Claim C10: the source binds VQDResult at top level through its import
statements, yet VQDResult is not an element of the module export list,
although the result types of the other exported solvers — EigensolverResult,
VQEResult, GroverResult, MinimumEigensolverResult, PVQDResult — and VQD
itself all are listed there. -/
theorem c10_vqd_result_not_exported :
    "VQDResult" ∈ importedNames ∧
    "VQDResult" ∉ dunderAll ∧
    "VQD" ∈ dunderAll ∧
    "EigensolverResult" ∈ dunderAll ∧
    "VQEResult" ∈ dunderAll ∧
    "GroverResult" ∈ dunderAll ∧
    "MinimumEigensolverResult" ∈ dunderAll ∧
    "PVQDResult" ∈ dunderAll := by
  decide

end QiskitAlgorithms

namespace QiskitAlgorithms

/-- Claim C3, counterexample: the export list of the module does contain
amplitude-estimation, phase-estimation, factoring and time-evolution
solvers — Shor, AmplitudeEstimation, PhaseEstimation and TrotterQRTE are
all exported and all belong to the out-of-scope solver families, so the
claim as stated is false. -/
theorem c3_out_of_scope_exports_counterexample :
    "Shor" ∈ dunderAll ∧ "Shor" ∈ outOfScopeNames ∧
    "AmplitudeEstimation" ∈ dunderAll ∧ "AmplitudeEstimation" ∈ outOfScopeNames ∧
    "PhaseEstimation" ∈ dunderAll ∧ "PhaseEstimation" ∈ outOfScopeNames ∧
    "TrotterQRTE" ∈ dunderAll ∧ "TrotterQRTE" ∈ outOfScopeNames := by
  decide

/-- Claim C3 as amended: the public surface of the module is not limited to
the variational-eigensolver core — every name of the amplitude-estimation,
phase-estimation, factoring and time-evolution docstring sections is bound
at top level and exported through the module export list. -/
theorem c3_exports_include_out_of_scope_families :
    (outOfScopeNames.all fun n => dunderAll.contains n) = true ∧
    (outOfScopeNames.all fun n => importedNames.contains n) = true := by
  decide

/-- Claim C2: a user-supplied initial point whose length differs from the
ansatz parameter count makes the run fail with DimensionMismatch, and the
Evaluation Port call count at that moment is zero. -/
theorem c2_dimension_mismatch_before_any_port_call
    (port : EvalPort) (opt : List EvalRecord → Option ParamVec)
    (cancel : Nat → Bool) (fuel : Nat) (fb : FallbackRange) (ansatz : Ansatz)
    (pt : ParamVec) (seed : Nat)
    (h : pt.length ≠ ansatz.parameterCount) :
    runVQE port opt cancel fuel fb ansatz (some pt) seed =
      (.error .dimensionMismatch, 0) := by
  simp [runVQE, prepare, h]

/-- Witness for claim C2 at a concrete input: a one-entry initial point
against a two-parameter ansatz fails with DimensionMismatch at zero
Evaluation Port calls. -/
theorem c2_dimension_mismatch_before_any_port_call_witness :
    ([(1 : ℚ)]).length ≠ (2 : Nat) ∧
    runVQE (fun _ => .ok 0) (fun _ => none) (fun _ => false) 5
        ⟨0, 1⟩ ⟨2, none, []⟩ (some [1]) 0 =
      (.error .dimensionMismatch, 0) :=
  ⟨by decide,
   c2_dimension_mismatch_before_any_port_call (fun _ => .ok 0) (fun _ => none)
     (fun _ => false) 5 ⟨0, 1⟩ ⟨2, none, []⟩ [1] 0 (by decide)⟩

/-- Claim C4: two runs with equal deterministic Evaluation Ports, equal
optimizers, equal cancellation tokens, equal call ceilings, equal
configuration, equal ansatz, equal initial points and equal seeds produce
identical parameter histories. -/
theorem c4_two_run_determinism
    (port1 port2 : EvalPort) (opt1 opt2 : List EvalRecord → Option ParamVec)
    (cancel1 cancel2 : Nat → Bool) (fuel1 fuel2 : Nat)
    (fb1 fb2 : FallbackRange) (a1 a2 : Ansatz)
    (init1 init2 : Option ParamVec) (seed1 seed2 : Nat)
    (hport : port1 = port2) (hopt : opt1 = opt2) (hcancel : cancel1 = cancel2)
    (hfuel : fuel1 = fuel2) (hfb : fb1 = fb2) (ha : a1 = a2)
    (hinit : init1 = init2) (hseed : seed1 = seed2) :
    paramHistory (runVQE port1 opt1 cancel1 fuel1 fb1 a1 init1 seed1) =
      paramHistory (runVQE port2 opt2 cancel2 fuel2 fb2 a2 init2 seed2) := by
  subst hport hopt hcancel hfuel hfb ha hinit hseed
  rfl

/-- Witness for claim C4 at a concrete input: the two-run determinism
theorem applied to two identical concrete runs. -/
theorem c4_two_run_determinism_witness :
    paramHistory (runVQE (fun _ => .ok 0) (fun _ => none) (fun _ => false) 3
        ⟨0, 1⟩ ⟨1, none, []⟩ (some [0]) 7) =
      paramHistory (runVQE (fun _ => .ok 0) (fun _ => none) (fun _ => false) 3
        ⟨0, 1⟩ ⟨1, none, []⟩ (some [0]) 7) :=
  c4_two_run_determinism (fun _ => .ok 0) (fun _ => .ok 0) (fun _ => none)
    (fun _ => none) (fun _ => false) (fun _ => false) 3 3 ⟨0, 1⟩ ⟨0, 1⟩
    ⟨1, none, []⟩ ⟨1, none, []⟩ (some [0]) (some [0]) 7 7
    rfl rfl rfl rfl rfl rfl rfl rfl

/-- Helper: a successful gradient-components computation over a list of
coordinate indices makes exactly two Evaluation Port calls per index. -/
theorem gradComponents_ok_calls (port : EvalPort) (eps : ℚ) (x : ParamVec) :
    ∀ (l : List Nat) (g : List ℚ) (c : Nat),
      gradComponents port eps x l = (.ok g, c) → c = 2 * l.length := by
  intro l
  induction l with
  | nil =>
    intro g c h
    simp only [gradComponents, Prod.mk.injEq] at h
    simp [h.2.symm]
  | cons i is ih =>
    intro g c h
    simp only [gradComponents] at h
    cases hp : port (perturb x i eps) with
    | error e => rw [hp] at h; simp at h
    | ok vplus =>
      rw [hp] at h
      cases hm : port (perturb x i (-eps)) with
      | error e => rw [hm] at h; simp at h
      | ok vminus =>
        rw [hm] at h
        cases hg : gradComponents port eps x is with
        | mk r c0 =>
          rw [hg] at h
          cases r with
          | error e => simp at h
          | ok gs =>
            simp only [Prod.mk.injEq, Except.ok.injEq] at h
            have := ih gs c0 hg
            simp only [List.length_cons]
            omega

/-- Claim C8: for a p-parameter ansatz and an Evaluation Port without
analytic gradients, one successful call of the finite-difference gradient
closure issues exactly two Evaluation Port calls per parameter, 2p in
total. -/
theorem c8_gradient_cost (port : EvalPort) (eps : ℚ) (x : ParamVec)
    (g : List ℚ) (c : Nat)
    (h : finiteDiffGrad port eps x = (.ok g, c)) :
    c = 2 * x.length := by
  rw [finiteDiffGrad] at h
  have := gradComponents_ok_calls port eps x (List.range x.length) g c h
  simpa using this

/-- Witness for claim C8 at a concrete input: the gradient closure over a
two-parameter vector issues exactly four Evaluation Port calls. -/
theorem c8_gradient_cost_witness :
    finiteDiffGrad (fun p => .ok p.sum) 1 [1, 2] = (.ok [1, 1], 4) ∧
    (4 : Nat) = 2 * ([(1 : ℚ), 2]).length :=
  ⟨by norm_num [finiteDiffGrad, gradComponents, perturb, List.range_succ],
   c8_gradient_cost (fun p => .ok p.sum) 1 [1, 2] [1, 1] 4
     (by norm_num [finiteDiffGrad, gradComponents, perturb, List.range_succ])⟩

end QiskitAlgorithms

namespace QiskitAlgorithms

/-- Helper: a driver run that terminates normally returns the tracked best
of its history, and its call count equals the history length, given the
entry invariant that the calls made so far equal the records so far. -/
theorem driverLoop_done_spec (port : EvalPort)
    (opt : List EvalRecord → Option ParamVec) (cancel : Nat → Bool) :
    ∀ (fuel : Nat) (hist : List EvalRecord) (q : ParamVec) (calls : Nat)
      (b : Option EvalRecord) (h : List EvalRecord) (c : Nat),
      calls = hist.length →
      driverLoop port opt cancel fuel hist q calls = (.done b h, c) →
      b = bestOf h ∧ c = h.length := by
  intro fuel
  induction fuel with
  | zero =>
    intro hist q calls b h c hcalls heq
    simp only [driverLoop, Prod.mk.injEq, RunOutcome.done.injEq] at heq
    obtain ⟨⟨hb, hh⟩, hc⟩ := heq
    subst hh
    exact ⟨hb.symm, by omega⟩
  | succ fuel ih =>
    intro hist q calls b h c hcalls heq
    simp only [driverLoop] at heq
    split at heq
    · exact absurd (congrArg Prod.fst heq) (by simp)
    · split at heq
      · exact absurd (congrArg Prod.fst heq) (by simp)
      · rename_i v hport
        split at heq
        · simp only [Prod.mk.injEq, RunOutcome.done.injEq] at heq
          obtain ⟨⟨hb, hh⟩, hc⟩ := heq
          subst hh
          refine ⟨hb.symm, ?_⟩
          simp only [List.length_append, List.length_cons, List.length_nil]
          omega
        · exact ih _ _ _ b h c (by simp [hcalls]) heq

/-- Helper: a driver run over a token that cancels once the call count
reaches N, entered before that point with the call-history invariant,
ends — when interrupted — with the tracked best of its history, a history
of exactly N records and exactly N Evaluation Port calls made. -/
theorem driverLoop_interrupted_spec (port : EvalPort)
    (opt : List EvalRecord → Option ParamVec) (N : Nat) :
    ∀ (fuel : Nat) (hist : List EvalRecord) (q : ParamVec) (calls : Nat)
      (b : Option EvalRecord) (h : List EvalRecord) (c : Nat),
      calls = hist.length → calls ≤ N →
      driverLoop port opt (fun m => decide (N ≤ m)) fuel hist q calls =
        (.interrupted b h, c) →
      b = bestOf h ∧ h.length = N ∧ c = N := by
  intro fuel
  induction fuel with
  | zero =>
    intro hist q calls b h c hcalls hle heq
    simp only [driverLoop] at heq
    exact absurd (congrArg Prod.fst heq) (by simp)
  | succ fuel ih =>
    intro hist q calls b h c hcalls hle heq
    simp only [driverLoop] at heq
    split at heq
    · rename_i hcond
      simp only [decide_eq_true_eq] at hcond
      simp only [Prod.mk.injEq, RunOutcome.interrupted.injEq] at heq
      obtain ⟨⟨hb, hh⟩, hc⟩ := heq
      subst hh
      refine ⟨hb.symm, by omega, by omega⟩
    · rename_i hcond
      simp only [decide_eq_true_eq] at hcond
      split at heq
      · exact absurd (congrArg Prod.fst heq) (by simp)
      · rename_i v hport
        split at heq
        · exact absurd (congrArg Prod.fst heq) (by simp)
        · exact ih _ _ _ b h c (by simp [hcalls]) (by omega) heq

/-- Helper: a driver run that ends in an Evaluation Port failure, entered
with the call-history invariant and a history of successfully evaluated
records, reports an erroring parameter vector, the failing evaluation
index, one call more than the preserved history, and a preserved history
whose records all evaluated successfully. -/
theorem driverLoop_failed_spec (port : EvalPort)
    (opt : List EvalRecord → Option ParamVec) (cancel : Nat → Bool) :
    ∀ (fuel : Nat) (hist : List EvalRecord) (q : ParamVec) (calls : Nat)
      (p : ParamVec) (i : Nat) (h : List EvalRecord) (c : Nat),
      calls = hist.length →
      (∀ r ∈ hist, port r.params = .ok r.value) →
      driverLoop port opt cancel fuel hist q calls = (.failed p i h, c) →
      (∃ e, port p = .error e) ∧ i = h.length ∧ c = h.length + 1 ∧
        ∀ r ∈ h, port r.params = .ok r.value := by
  intro fuel
  induction fuel with
  | zero =>
    intro hist q calls p i h c hcalls hinv heq
    simp only [driverLoop] at heq
    exact absurd (congrArg Prod.fst heq) (by simp)
  | succ fuel ih =>
    intro hist q calls p i h c hcalls hinv heq
    simp only [driverLoop] at heq
    split at heq
    · exact absurd (congrArg Prod.fst heq) (by simp)
    · split at heq
      · rename_i e hport
        simp only [Prod.mk.injEq, RunOutcome.failed.injEq] at heq
        obtain ⟨⟨hp, hi, hh⟩, hc⟩ := heq
        subst hp hh
        exact ⟨⟨e, hport⟩, by omega, by omega, hinv⟩
      · rename_i v hport
        split at heq
        · exact absurd (congrArg Prod.fst heq) (by simp)
        · refine ih _ _ _ p i h c (by simp [hcalls]) ?_ heq
          intro r hr
          rcases List.mem_append.mp hr with hr | hr
          · exact hinv r hr
          · simp only [List.mem_singleton] at hr
            subst hr
            exact hport

/-- Claim C6: a run in which the Evaluation Port fails propagates a
failure outcome tagged with the offending parameter vector and evaluation
index, makes no retry (the call count is the failing index plus one, each
recorded evaluation having been made exactly once), returns no optimizer
state, and preserves the history of the evaluations recorded before the
failure, all of which evaluated successfully. -/
theorem c6_evaluation_failure_propagation (port : EvalPort)
    (opt : List EvalRecord → Option ParamVec) (cancel : Nat → Bool)
    (fuel : Nat) (q p : ParamVec) (i : Nat) (h : List EvalRecord) (c : Nat)
    (hrun : driverLoop port opt cancel fuel [] q 0 = (.failed p i h, c)) :
    (∃ e, port p = .error e) ∧ i = h.length ∧ c = h.length + 1 ∧
      ∀ r ∈ h, port r.params = .ok r.value :=
  driverLoop_failed_spec port opt cancel fuel [] q 0 p i h c rfl
    (by intro r hr; cases hr) hrun

/-- Claim C9: a run whose cancellation token fires once N Evaluation Port
calls were made and that ends interrupted carries the best record of its
history, a history of exactly N records — no recorded evaluation is
lost — and made exactly N Evaluation Port calls; the token is only ever
consulted at call boundaries, as a function of the call count. -/
theorem c9_cancellation (port : EvalPort)
    (opt : List EvalRecord → Option ParamVec) (N fuel : Nat) (q : ParamVec)
    (b : Option EvalRecord) (h : List EvalRecord) (c : Nat)
    (hrun : driverLoop port opt (fun m => decide (N ≤ m)) fuel [] q 0 =
      (.interrupted b h, c)) :
    b = bestOf h ∧ h.length = N ∧ c = N :=
  driverLoop_interrupted_spec port opt N fuel [] q 0 b h c rfl (Nat.zero_le N) hrun

/-- Witness for claim C9 at a concrete input: a run cancelled after
exactly one Evaluation Port call ends interrupted with the one-record
history and one call made. -/
theorem c9_cancellation_witness :
    driverLoop (fun _ => .ok 0) (fun _ => some [0]) (fun m => decide (1 ≤ m))
        3 [] [0] 0 = (.interrupted (some ⟨[0], 0⟩) [⟨[0], 0⟩], 1) ∧
    (some (⟨[0], 0⟩ : EvalRecord) = bestOf [⟨[0], 0⟩] ∧
      ([(⟨[0], 0⟩ : EvalRecord)]).length = 1 ∧ (1 : Nat) = 1) :=
  ⟨by rfl,
   c9_cancellation (fun _ => .ok 0) (fun _ => some [0]) 1 3 [0]
     (some ⟨[0], 0⟩) [⟨[0], 0⟩] 1 (by rfl)⟩

/-- Witness for claim C6 at a concrete input: a port failing on the second
query aborts with the offending vector, evaluation index one, two calls
made, and the first evaluation preserved in the history. -/
theorem c6_evaluation_failure_propagation_witness :
    driverLoop
        (fun v => if v = [1] then Except.error EvalError.backendUnavailable
                  else Except.ok (0 : ℚ))
        (fun _ => some [1]) (fun _ => false) 3 [] [0] 0 =
      (.failed [1] 1 [⟨[0], 0⟩], 2) ∧
    (1 : Nat) = ([(⟨[0], 0⟩ : EvalRecord)]).length ∧
    (2 : Nat) = ([(⟨[0], 0⟩ : EvalRecord)]).length + 1 :=
  ⟨by norm_num [driverLoop],
   (c6_evaluation_failure_propagation
     (fun v => if v = [1] then Except.error EvalError.backendUnavailable
               else Except.ok (0 : ℚ))
     (fun _ => some [1]) (fun _ => false) 3 [0] [1] 1 [⟨[0], 0⟩] 2
     (by norm_num [driverLoop])).2.1,
   (c6_evaluation_failure_propagation
     (fun v => if v = [1] then Except.error EvalError.backendUnavailable
               else Except.ok (0 : ℚ))
     (fun _ => some [1]) (fun _ => false) 3 [0] [1] 1 [⟨[0], 0⟩] 2
     (by norm_num [driverLoop])).2.2.1⟩

end QiskitAlgorithms

namespace QiskitAlgorithms

/-- Claim C1, counterexample: a completed run whose optimizer queries a
worse point last has an optimal value (0, the tracked best, with no extra
Evaluation Port call: two calls for two records) different from the value
of the last Evaluation Record appended to the history (1), so the claim as
stated is false at this input. -/
theorem c1_last_record_counterexample :
    runAndFinalize (fun v => Except.ok (v.headD 0))
        (fun hist => if hist.length < 2 then some [1] else none)
        (fun _ => false) 3 [0] false =
      some (⟨[0], 0, 2, [⟨[0], 0⟩, ⟨[1], 1⟩]⟩, 2) ∧
    ([(⟨[0], (0 : ℚ)⟩ : EvalRecord), ⟨[1], 1⟩].getLast?).map EvalRecord.value =
      some 1 ∧
    (0 : ℚ) ≠ 1 := by
  refine ⟨?_, by rfl, by norm_num⟩
  norm_num [runAndFinalize, driverLoop, finalize, bestOf, betterOf]

/-- Claim C1 as amended: for every completed optimization run, the optimal
value and optimal parameters of the result are those of the tracked best
Evaluation Record of the history (the last record that updated the best
cursor), taken from history without any additional Evaluation Port call —
the total call count equals the history length — unless re-verification is
requested, in which case exactly one additional Evaluation Port call is
made at the optimal parameters and its successful result overrides. -/
theorem c1_optimal_value_from_tracked_best
    (port : EvalPort) (opt : List EvalRecord → Option ParamVec)
    (cancel : Nat → Bool) (fuel : Nat) (initPoint : ParamVec)
    (r : EigensolverResult) (c : Nat)
    (hrun : runAndFinalize port opt cancel fuel initPoint false = some (r, c)) :
    bestOf r.history = some ⟨r.optimalParams, r.optimalValue⟩ ∧
    c = r.history.length ∧ r.nEvals = c ∧
    ∀ r2 c2, runAndFinalize port opt cancel fuel initPoint true = some (r2, c2) →
      c2 = c + 1 ∧ r2.optimalParams = r.optimalParams ∧ r2.history = r.history ∧
      ∀ v, port r2.optimalParams = .ok v → r2.optimalValue = v := by
  cases hdl : driverLoop port opt cancel fuel [] initPoint 0 with
  | mk out calls =>
    cases out with
    | done b h =>
      cases b with
      | none =>
        simp only [runAndFinalize] at hrun
        rw [hdl] at hrun
        simp at hrun
      | some best =>
        have hbest := driverLoop_done_spec port opt cancel fuel [] initPoint 0
          (some best) h calls rfl hdl
        simp only [runAndFinalize] at hrun
        rw [hdl] at hrun
        simp only [finalize, Bool.false_eq_true, if_false, Option.some.injEq,
          Prod.mk.injEq] at hrun
        obtain ⟨hr, hc⟩ := hrun
        subst hr hc
        refine ⟨by rw [← hbest.1], hbest.2, rfl, ?_⟩
        intro r2 c2 hrun2
        simp only [runAndFinalize] at hrun2
        rw [hdl] at hrun2
        simp only [finalize, if_true, Option.some.injEq, Prod.mk.injEq] at hrun2
        obtain ⟨hr2, hc2⟩ := hrun2
        subst hr2 hc2
        refine ⟨rfl, rfl, rfl, ?_⟩
        intro v hv
        simp only at hv
        simp [hv, Except.toOption]
    | interrupted b h =>
      simp only [runAndFinalize] at hrun
      rw [hdl] at hrun
      simp at hrun
    | failed p i h =>
      simp only [runAndFinalize] at hrun
      rw [hdl] at hrun
      simp at hrun

/-- Witness for the amended claim C1 at a concrete input: in the
counterexample run the tracked best of the history is the first record,
and it carries the reported optimal parameters and optimal value. -/
theorem c1_optimal_value_from_tracked_best_witness :
    bestOf [⟨[0], (0 : ℚ)⟩, ⟨[1], 1⟩] = some ⟨[0], 0⟩ :=
  (c1_optimal_value_from_tracked_best (fun v => Except.ok (v.headD 0))
    (fun hist => if hist.length < 2 then some [1] else none) (fun _ => false) 3
    [0] ⟨[0], 0, 2, [⟨[0], 0⟩, ⟨[1], 1⟩]⟩ 2
    (by norm_num [runAndFinalize, driverLoop, finalize, bestOf, betterOf])).1

end QiskitAlgorithms

namespace QiskitAlgorithms

/-- Helper: a deflation sequence that already carries a failure marker is
returned unchanged by the next step. -/
theorem vqdRun_succ_of_failed (s : VQDSetup) (k : Nat)
    (results : List EigensolverResult) (f0 : VQDStepFailure)
    (hk : vqdRun s k = (results, some f0)) :
    vqdRun s (k + 1) = (results, some f0) := by
  simp [vqdRun, hk]

/-- Helper: a successful next step appends its result to the deflation
sequence. -/
theorem vqdRun_succ_of_ok (s : VQDSetup) (k : Nat)
    (results : List EigensolverResult) (r : EigensolverResult)
    (hk : vqdRun s k = (results, none)) (hs : vqdStep s results = .ok r) :
    vqdRun s (k + 1) = (results ++ [r], none) := by
  simp [vqdRun, hk, hs]

/-- Helper: a failing next step keeps the earlier results and records the
failure marker. -/
theorem vqdRun_succ_of_step_failure (s : VQDSetup) (k : Nat)
    (results : List EigensolverResult) (f : VQDStepFailure)
    (hk : vqdRun s k = (results, none)) (hs : vqdStep s results = .error f) :
    vqdRun s (k + 1) = (results, some f) := by
  simp [vqdRun, hk, hs]

/-- Helper: the results of an earlier deflation stage are an unchanged
initial segment of every later stage. -/
theorem vqdRun_take_le (s : VQDSetup) :
    ∀ (i k : Nat), i ≤ k →
      (vqdRun s k).1.take ((vqdRun s i).1.length) = (vqdRun s i).1 := by
  intro i k
  induction k with
  | zero =>
    intro h
    have hi : i = 0 := Nat.le_zero.mp h
    subst hi
    simp [List.take_length]
  | succ k ih =>
    intro h
    rcases Nat.lt_or_ge i (k + 1) with hlt | hge
    · have hik : i ≤ k := Nat.lt_succ_iff.mp hlt
      have ihk := ih hik
      have hlen : (vqdRun s i).1.length ≤ (vqdRun s k).1.length := by
        have hl := congrArg List.length ihk
        rw [List.length_take] at hl
        omega
      cases hk : vqdRun s k with
      | mk results f =>
        rw [hk] at ihk hlen
        cases f with
        | some f0 =>
          rw [vqdRun_succ_of_failed s k results f0 hk]
          exact ihk
        | none =>
          cases hs : vqdStep s results with
          | ok r =>
            rw [vqdRun_succ_of_ok s k results r hk hs]
            exact (List.take_append_of_le_length hlen).trans ihk
          | error f0 =>
            rw [vqdRun_succ_of_step_failure s k results f0 hk hs]
            exact ihk
    · have hi : i = k + 1 := Nat.le_antisymm h hge
      subst hi
      simp [List.take_length]

/-- Helper: every element of a deflation sequence is the output of one
deflation step run on exactly the elements before it. -/
theorem vqdRun_elem_step (s : VQDSetup) :
    ∀ (k j : Nat) (r : EigensolverResult),
      ((vqdRun s k).1)[j]? = some r →
      vqdStep s ((vqdRun s k).1.take j) = .ok r := by
  intro k
  induction k with
  | zero =>
    intro j r h
    simp [vqdRun] at h
  | succ k ih =>
    intro j r h
    cases hk : vqdRun s k with
    | mk results f =>
      cases f with
      | some f0 =>
        rw [vqdRun_succ_of_failed s k results f0 hk] at h ⊢
        have hstep := ih j r (by rw [hk]; exact h)
        rw [hk] at hstep
        exact hstep
      | none =>
        cases hs : vqdStep s results with
        | error f0 =>
          rw [vqdRun_succ_of_step_failure s k results f0 hk hs] at h ⊢
          have hstep := ih j r (by rw [hk]; exact h)
          rw [hk] at hstep
          exact hstep
        | ok r0 =>
          rw [vqdRun_succ_of_ok s k results r0 hk hs] at h ⊢
          rcases Nat.lt_or_ge j results.length with hj | hj
          · rw [List.getElem?_append_left hj] at h
            rw [List.take_append_of_le_length (Nat.le_of_lt hj)]
            have hstep := ih j r (by rw [hk]; exact h)
            rw [hk] at hstep
            exact hstep
          · rcases Nat.eq_or_lt_of_le hj with hj2 | hj2
            · rw [← hj2] at h ⊢
              rw [List.getElem?_concat_length] at h
              injection h with h0
              rw [List.take_left]
              rw [← h0]
              exact hs
            · have hnone : (results ++ [r0])[j]? = none := by
                refine List.getElem?_eq_none ?_
                simp only [List.length_append, List.length_cons, List.length_nil]
                omega
              rw [hnone] at h
              exact Option.noConfusion h

/-- Claim C5: deflation frame property — for every deflation run, the
results of stage i are an unchanged initial segment of the results of any
later stage k, and every result in the sequence was produced by a
deflation step whose only inputs (hence whose penalty) are exactly the
results preceding it. -/
theorem c5_deflation_frame (s : VQDSetup) (i k : Nat) (hik : i ≤ k) :
    (vqdRun s k).1.take ((vqdRun s i).1.length) = (vqdRun s i).1 ∧
    ∀ j r, ((vqdRun s k).1)[j]? = some r →
      vqdStep s ((vqdRun s k).1.take j) = .ok r :=
  ⟨vqdRun_take_le s i k hik, fun j r h => vqdRun_elem_step s k j r h⟩

/-- Witness for claim C5 at a concrete input: the frame property of a
two-stage deflation run over a constant port, at stages one and two. -/
theorem c5_deflation_frame_witness :
    (vqdRun ⟨fun _ => Except.ok 0, fun _ _ => Except.ok 0, fun _ => 1,
        fun _ => none, fun _ => false, 1, [0]⟩ 2).1.take
      ((vqdRun ⟨fun _ => Except.ok 0, fun _ _ => Except.ok 0, fun _ => 1,
        fun _ => none, fun _ => false, 1, [0]⟩ 1).1.length) =
    (vqdRun ⟨fun _ => Except.ok 0, fun _ _ => Except.ok 0, fun _ => 1,
        fun _ => none, fun _ => false, 1, [0]⟩ 1).1 :=
  (c5_deflation_frame
    ⟨fun _ => Except.ok 0, fun _ _ => Except.ok 0, fun _ => 1,
      fun _ => none, fun _ => false, 1, [0]⟩ 1 2 (by decide)).1

/-- Claim C7: the Auxiliary Observable Evaluator fails with
DuplicateOperatorKey before any Evaluation Port call when the input keys
are not unique; with unique keys it returns one entry per input operator,
with the same keys in the same order and the same count, making exactly
one Evaluation Port call per operator, and each entry carries either the
(value, variance) pair or a per-key failure marker according to that one
call, so one failing operator leaves the other keys with their valid
results. -/
theorem c7_aux_observables_spec {Key Op : Type} [DecidableEq Key]
    (port : Op → ParamVec → Except EvalError (ℚ × ℚ))
    (auxOps : List (Key × Op)) (pt : ParamVec) :
    (¬ (auxOps.map Prod.fst).Nodup →
      evalObservables port auxOps pt = (.error .duplicateOperatorKey, 0)) ∧
    ((auxOps.map Prod.fst).Nodup →
      ∃ out : List (Key × AuxEntry),
        evalObservables port auxOps pt = (.ok out, auxOps.length) ∧
        out.map Prod.fst = auxOps.map Prod.fst ∧
        out.length = auxOps.length ∧
        ∀ i : Nat, out[i]? = (auxOps[i]?).map
          (fun ko : Key × Op => (ko.fst, auxEntryOf (port ko.snd pt)))) := by
  constructor
  · intro hdup
    simp [evalObservables, hdup]
  · intro hnodup
    refine ⟨auxOps.map (fun ko => (ko.fst, auxEntryOf (port ko.snd pt))),
      ?_, ?_, ?_, ?_⟩
    · simp [evalObservables, hnodup]
    · simp only [List.map_map]
      rfl
    · simp
    · intro i
      simp [List.getElem?_map]

/-- Witness for claim C7 at a concrete input: three uniquely keyed
operators of which the middle one fails yield three entries with matching
keys in order, a failure marker only at the middle key, valid values at
the other two, and three Evaluation Port calls. -/
theorem c7_aux_observables_witness :
    evalObservables
      (fun (op : Nat) (_ : ParamVec) =>
        if op = 1 then Except.error EvalError.backendUnavailable
        else Except.ok ((5 : ℚ), 0))
      [((10 : Nat), (0 : Nat)), (11, 1), (12, 2)] [] =
      (.ok [(10, .ok 5 0), (11, .failedMarker .backendUnavailable),
            (12, .ok 5 0)], 3) := by
  rfl

end QiskitAlgorithms
